import Mathlib

/-!
Shallow embedding of the transcription service in
`src/services/whisper_gpu.py` (class `WhisperGPUService`), together with
proofs of the specification claims about it.

Conventions of the embedding:
* Python floats that the code only adds, divides and truncates are
  modelled as `Rat` (exact arithmetic; the code performs no operation
  whose float rounding is observable by the claims).
* Instance attributes of the service become fields of `ServiceState`.
  The attribute `model_name`, which the class reads but never assigns,
  is modelled by `getattr_model_name`, which raises `AttributeError`
  exactly as CPython attribute lookup does.
* External effects (CUDA probing, `whisper.load_model`,
  `model.transcribe`, `pydub` decoding, the filesystem, `time.time()`)
  are oracles passed in as explicit arguments, so each embedded
  operation is a pure function of the service state and the oracles.
* A Python function that can raise returns `Except PyError _`;
  `Except.error` is an uncaught exception propagating to the caller.
-/

namespace CloudTranscript

/-- The keys of `WhisperGPUService.AVAILABLE_MODELS`
(whisper_gpu.py lines 21-43). -/
def AVAILABLE_MODELS : List String := ["turbo", "medium", "large-v3"]

/-- Python exceptions that the embedded code can raise. -/
inductive PyError where
  | fileNotFoundError (path : String)
  | attributeError (attr : String)
  | indexError
  | zeroDivisionError
  | runtimeError (msg : String)
  | other (msg : String)
deriving Repr, DecidableEq

/-- The `str(e)` rendering used when an exception is stored in a result
dictionary (`'error': str(e)`). -/
def errMsg : PyError → String
  | .fileNotFoundError p => "Audio file not found: " ++ p
  | .attributeError a => "WhisperGPUService object has no attribute " ++ a
  | .indexError => "list index out of range"
  | .zeroDivisionError => "division by zero"
  | .runtimeError m => m
  | .other m => m

/-- The mutable instance attributes of `WhisperGPUService` that the
claims observe: `self.model` (an in-memory model object, represented by
a numeric handle; `none` = Python `None`), `self.current_model_name`,
`self.device`, `self.active_model`, and the content of the
`active_model.txt` marker file. -/
structure ServiceState where
  model : Option Nat
  current_model_name : Option String
  device : String
  active_model : Option String
  markerFile : Option String
deriving Repr, DecidableEq

/-- Python truthiness of an optional string (`None` and `""` are falsy),
used by `if not self.active_model`. -/
def pyTruthyName : Option String → Bool
  | none => false
  | some s => s ≠ ""

/-- Embeds `_set_active_model` (lines 90-104).  `writeOk` is the oracle
for whether `config_file.write_text(model_name)` succeeds; when it
raises, the exception is caught and `False` is returned before
`self.active_model` is assigned. -/
def _set_active_model (s : ServiceState) (writeOk : Bool) (model_name : String) :
    Bool × ServiceState :=
  if model_name ∈ AVAILABLE_MODELS then
    if writeOk then
      (true, { s with markerFile := some model_name, active_model := some model_name })
    else
      (false, s)
  else
    (false, s)

/-- Embeds `switch_model` (lines 170-181): persist the preference via
`_set_active_model`; on success, unload the current model when it
differs from the requested one. -/
def switch_model (s : ServiceState) (writeOk : Bool) (model_name : String) :
    Bool × ServiceState :=
  let r := _set_active_model s writeOk model_name
  if r.1 then
    if r.2.model.isSome ∧ r.2.current_model_name ≠ some model_name then
      (true, { r.2 with model := none, current_model_name := none })
    else
      (true, r.2)
  else
    (false, r.2)

/-- Oracle for one invocation of `whisper.load_model`: either a fresh
in-memory model object (its handle) or a raised exception's message. -/
inductive LoadOutcome where
  | success (handle : Nat)
  | failure (msg : String)
deriving Repr, DecidableEq

/-- Embeds `_load_model` (lines 183-210).  Returns (returned boolean,
resulting state, number of underlying `whisper.load_model` calls
performed).  On a load exception the assignments to `self.model` and
`self.current_model_name` never execute, so the state is unchanged. -/
def _load_model (s : ServiceState) (load : LoadOutcome) :
    Bool × ServiceState × Nat :=
  if s.model.isSome ∧ s.current_model_name = s.active_model then
    (true, s, 0)
  else if pyTruthyName s.active_model = false then
    (false, s, 0)
  else
    match load with
    | .success h =>
        (true, { s with model := some h, current_model_name := s.active_model }, 1)
    | .failure _ => (false, s, 1)

/-- Whether the first list is an initial run of the second. -/
def matchesAt : List Char → List Char → Bool
  | [], _ => true
  | _ :: _, [] => false
  | n :: ns, h :: hs => (n = h) && matchesAt ns hs

/-- Whether the first list occurs contiguously inside the second. -/
def occursIn (needle : List Char) : List Char → Bool
  | [] => needle.isEmpty
  | h :: hs => matchesAt needle (h :: hs) || occursIn needle hs

/-- Whether `needle` occurs as a substring of `hay`; embeds the
`glob(f"*{model_name}*")` filename match used by the cache scan. -/
def strContains (hay needle : String) : Bool :=
  occursIn needle.data hay.data

/-- The files of the cache directory matched by
`self.models_cache_dir.glob(f"*{model_name}*")`. -/
def globMatches (cache : List String) (model_name : String) : List String :=
  cache.filter (fun f => strContains f model_name)

/-- Embeds the unlink loop of `delete_model` (lines 149-151): files are
unlinked one by one; the first failing `unlink` raises, leaving the
remaining files in place.  Returns (cache contents afterwards, whether
every unlink succeeded). -/
def unlinkAll (cache : List String) (files : List String) (unlinkFails : String → Bool) :
    List String × Bool :=
  match files with
  | [] => (cache, true)
  | f :: rest =>
      if unlinkFails f then (cache, false)
      else unlinkAll (cache.erase f) rest unlinkFails

/-- Embeds `delete_model` (lines 139-168).  Returns (returned boolean,
resulting service state, resulting cache contents).  The loaded handle
is cleared only on the branch where at least one file was deleted and
the deleted identifier is the currently loaded one. -/
def delete_model (s : ServiceState) (cache : List String)
    (unlinkFails : String → Bool) (model_name : String) :
    Bool × ServiceState × List String :=
  if model_name ∈ AVAILABLE_MODELS then
    let files := globMatches cache model_name
    let res := unlinkAll cache files unlinkFails
    if res.2 then
      if files.length > 0 then
        if s.current_model_name = some model_name then
          (true, { s with model := none, current_model_name := none }, res.1)
        else
          (true, s, res.1)
      else
        (false, s, res.1)
    else
      (false, s, res.1)
  else
    (false, s, cache)

/-- Python `str.lower()` restricted to the ASCII suffixes the code
compares (`audio_path.suffix.lower()`). -/
def pyLower (s : String) : String := String.mk (s.data.map Char.toLower)

/-- Python `int(x)` on a float: truncation toward zero. -/
def pyInt (q : Rat) : Int := if 0 ≤ q then q.floor else -((-q).floor)

/-- The filesystem facts about one audio file that `_prepare_audio`
consults: whether the path exists, its `stat().st_size`, its
`Path.suffix` (with the leading dot), its stem and parent directory. -/
structure SourceFile where
  fileExists : Bool
  sizeBytes : Nat
  suffix : String
  stem : String
  parent : String
deriving Repr, DecidableEq

/-- What `_prepare_audio` returns: the ready path, the size in MB
computed from the source file, and (for the embedding's observers)
whether a `"{stem}_temp.wav"` temporary file was written. -/
structure PrepareResult where
  readyPath : String
  sizeMB : Rat
  tempCreated : Bool
deriving Repr, DecidableEq

/-- Embeds `_prepare_audio` (lines 220-253).  `decodeOk` is the oracle
for the pydub decode/resample/export pipeline of the conversion branch.
The size is computed from the source file (line 228) before either
branch is taken. -/
def _prepare_audio (f : SourceFile) (audio_path : String) (decodeOk : Bool) :
    Except PyError PrepareResult :=
  if f.fileExists = false then
    .error (.fileNotFoundError audio_path)
  else
    let file_size_mb : Rat := (f.sizeBytes : Rat) / (1024 * 1024)
    if pyLower f.suffix ∈ [".wav"] then
      .ok { readyPath := audio_path, sizeMB := file_size_mb, tempCreated := false }
    else
      if decodeOk then
        .ok { readyPath := f.parent ++ "/" ++ f.stem ++ "_temp.wav",
              sizeMB := file_size_mb, tempCreated := true }
      else
        .error (.other "audio decode failed")

/-- One entry of the `'segments'` list of a raw whisper result dict.
`endTime` embeds the `'end'` key; `no_speech_prob` is optional because
the code reads it with `segment.get('no_speech_prob', 0.0)`. -/
structure WhisperSeg where
  start : Rat
  endTime : Rat
  text : String
  no_speech_prob : Option Rat
deriving Repr, DecidableEq

/-- The raw result dict of `self.model.transcribe`.  `segments = none`
models the `'segments'` key being absent (the code reads it with
`result.get('segments', ...)`). -/
structure WhisperResult where
  text : String
  language : String
  segments : Option (List WhisperSeg)
deriving Repr, DecidableEq

/-- Last element of a nonempty list, structurally. -/
def lastSeg (sg : WhisperSeg) : List WhisperSeg → WhisperSeg
  | [] => sg
  | t :: ts => lastSeg t ts

/-- Embeds `result.get('segments', [{}])[-1].get('end', 0)` (line 310).
When the `'segments'` key is absent the default `[{}]` applies and the
value is `0`; when the key holds an empty list, `[][-1]` raises
`IndexError`; otherwise the last segment's end offset is returned. -/
def audio_duration_of (r : WhisperResult) : Except PyError Rat :=
  match r.segments with
  | none => .ok 0
  | some [] => .error .indexError
  | some (sg :: rest) => .ok (lastSeg sg rest).endTime

/-- One entry of the `segments` list that `transcribe_audio` builds
(lines 295-302): per-segment text is whitespace-stripped. -/
structure OutSeg where
  start : Rat
  endTime : Rat
  text : String
  confidence : Rat
deriving Repr, DecidableEq

/-- Embeds the segment-building loop of `transcribe_audio`
(lines 295-302), iterating `result.get('segments', [])`. -/
def outSegments (r : WhisperResult) : List OutSeg :=
  (r.segments.getD []).map fun sg =>
    { start := sg.start, endTime := sg.endTime, text := sg.text.trim,
      confidence := sg.no_speech_prob.getD 0 }

/-- Embeds reading `self.model_name`.  `WhisperGPUService` never assigns
a `model_name` attribute anywhere in the repository (its attributes are
`model`, `current_model_name`, `device`, `models_cache_dir` and
`active_model`), and the class defines no `__getattr__`, so CPython
attribute lookup raises `AttributeError` on every access. -/
def getattr_model_name (_ : ServiceState) : Except PyError String :=
  .error (.attributeError "model_name")

/-- The success response dict of `transcribe_audio` (lines 305-315). -/
structure SuccessResponse where
  text : String
  language : String
  segments : List OutSeg
  processing_time_seconds : Int
  audio_duration_seconds : Rat
  model_used : String
  device_used : String
  file_size_mb : Rat
  success : Bool
deriving Repr, DecidableEq

/-- The failure response dict of `transcribe_audio` (lines 324-331). -/
structure FailureResponse where
  text : String
  error : String
  success : Bool
  processing_time_seconds : Int
  model_used : String
  device_used : String
deriving Repr, DecidableEq

/-- The value `transcribe_audio` would return: either its success dict
or its failure dict. -/
inductive TAResponse where
  | success (r : SuccessResponse)
  | failure (r : FailureResponse)
deriving Repr, DecidableEq

/-- Embeds the construction of the success dict (lines 305-315).  The
dict literal evaluates its values in source order, so the
`audio_duration_seconds` expression (which can raise `IndexError`) runs
before the `model_used` expression `self.model_name` (which raises
`AttributeError`). -/
def buildSuccessResponse (s : ServiceState) (r : WhisperResult)
    (elapsed : Rat) (sizeMB : Rat) : Except PyError SuccessResponse :=
  match audio_duration_of r with
  | .error e => .error e
  | .ok dur =>
      match getattr_model_name s with
      | .error e => .error e
      | .ok mu =>
          .ok { text := r.text.trim, language := r.language,
                segments := outSegments r,
                processing_time_seconds := pyInt elapsed,
                audio_duration_seconds := dur, model_used := mu,
                device_used := s.device, file_size_mb := sizeMB,
                success := true }

/-- Embeds the construction of the failure dict (lines 324-331), whose
`model_used` value reads `self.model_name`. -/
def buildFailureResponse (s : ServiceState) (msg : String) :
    Except PyError FailureResponse :=
  match getattr_model_name s with
  | .error e => .error e
  | .ok mu =>
      .ok { text := "", error := msg, success := false,
            processing_time_seconds := 0, model_used := mu,
            device_used := s.device }

/-- Embeds the `except Exception as e` handler (lines 322-331): the
caught exception's message is stored while building the failure dict;
an exception raised by that construction itself propagates. -/
def catchToFailure (s : ServiceState) (msg : String) :
    Except PyError TAResponse :=
  match buildFailureResponse s msg with
  | .error e => .error e
  | .ok f => .ok (.failure f)

/-- Everything observable about one `transcribe_audio` call: the value
returned or exception raised, the service state afterwards, whether a
normalized temporary file created by `_prepare_audio` is still on disk
when the call ends, and how many underlying model loads happened. -/
structure TAResult where
  outcome : Except PyError TAResponse
  state : ServiceState
  tempRemains : Bool
  loadCalls : Nat

/-- Embeds `transcribe_audio` (lines 255-331).  Oracles: `load` for
`whisper.load_model`, `src`/`decodeOk` for the filesystem and pydub,
`infer` for `self.model.transcribe`, `elapsed` for the wall-clock time
the inference took.  The temp-file unlink (lines 291-292) sits inside
the `try` after the inference call, so it runs only when inference
returned; the path inequality it tests is equivalent to
`tempCreated` because the conversion temp name always differs from the
source name. -/
def transcribe_audio (s : ServiceState) (load : LoadOutcome) (src : SourceFile)
    (audio_path : String) (decodeOk : Bool)
    (infer : Except String WhisperResult) (elapsed : Rat) : TAResult :=
  let L := _load_model s load
  if L.1 then
    match _prepare_audio src audio_path decodeOk with
    | .error e =>
        { outcome := catchToFailure L.2.1 (errMsg e), state := L.2.1,
          tempRemains := false, loadCalls := L.2.2 }
    | .ok prep =>
        match infer with
        | .error msg =>
            { outcome := catchToFailure L.2.1 msg, state := L.2.1,
              tempRemains := prep.tempCreated, loadCalls := L.2.2 }
        | .ok r =>
            match buildSuccessResponse L.2.1 r elapsed prep.sizeMB with
            | .ok resp =>
                { outcome := .ok (.success resp), state := L.2.1,
                  tempRemains := false, loadCalls := L.2.2 }
            | .error e =>
                { outcome := catchToFailure L.2.1 (errMsg e), state := L.2.1,
                  tempRemains := false, loadCalls := L.2.2 }
  else
    { outcome := .error (.runtimeError "Failed to load Whisper model"),
      state := L.2.1, tempRemains := false, loadCalls := L.2.2 }

/-- One entry of the `segment_results` list built by
`transcribe_segments` (lines 372-379). -/
structure SegEntry where
  segment_number : Nat
  start_time : Rat
  end_time : Rat
  duration : Rat
  text : String
  processing_time : Int
deriving Repr, DecidableEq

/-- The aggregate dict returned by `transcribe_segments` for nonempty
window lists: the success shape (lines 388-395) fills `model_used` and
`device_used`; the failure shape (lines 399-405) fills `error`. -/
structure SegAggregate where
  text : String
  success : Bool
  segments : List SegEntry
  total_processing_time_seconds : Int
  error : Option String
  model_used : Option String
  device_used : Option String
deriving Repr, DecidableEq

/-- The value `transcribe_segments` returns: the `transcribe_audio`
response when the window list is empty (line 347 delegates), or an
aggregate dict otherwise. -/
inductive TSValue where
  | viaFile (r : TAResponse)
  | agg (d : SegAggregate)
deriving Repr, DecidableEq

/-- Embeds the per-window loop of `transcribe_segments` (lines 356-383).
Window `i` is exported to `temp_segment_{i}.wav` (an existing `.wav`
file, so the inner `_prepare_audio` returns it unchanged) and run
through `transcribe_audio`; a window whose result dict has
`success=False` is skipped; an exception raised by the inner call
propagates out of the loop. -/
def ts_loop (s : ServiceState) (parent : String) (i : Nat)
    (ws : List (Rat × Rat)) (loads : Nat → LoadOutcome)
    (infers : Nat → Except String WhisperResult) (elapseds : Nat → Rat)
    (segSizes : Nat → Nat) (acc : List SegEntry) (total : Int) :
    Except PyError (List SegEntry × Int × ServiceState) :=
  match ws with
  | [] => .ok (acc, total, s)
  | (start_time, end_time) :: rest =>
      let segSrc : SourceFile :=
        { fileExists := true, sizeBytes := segSizes i, suffix := ".wav",
          stem := "temp_segment_" ++ toString i, parent := parent }
      let segPath := parent ++ "/temp_segment_" ++ toString i ++ ".wav"
      let r := transcribe_audio s (loads i) segSrc segPath true (infers i) (elapseds i)
      match r.outcome with
      | .error e => .error e
      | .ok (.success sr) =>
          let entry : SegEntry :=
            { segment_number := i + 1, start_time := start_time,
              end_time := end_time, duration := end_time - start_time,
              text := sr.text, processing_time := sr.processing_time_seconds }
          ts_loop r.state parent (i + 1) rest loads infers elapseds segSizes
            (acc ++ [entry]) (total + sr.processing_time_seconds)
      | .ok (.failure _) =>
          ts_loop r.state parent (i + 1) rest loads infers elapseds segSizes acc total

/-- Embeds `transcribe_segments` (lines 333-405).  An empty window list
returns `transcribe_audio` on the original path (line 347, outside the
`try`, so its exceptions propagate).  Otherwise the whole body runs
under `try`: the initial `AudioSegment.from_file` (oracle
`loadAudioOk`), the per-window loop, the blank-line join (line 386) and
the aggregate dict (lines 388-395) whose `model_used` value reads
`self.model_name`; any exception is caught at line 397 and the failure
aggregate (lines 399-405) is returned. -/
def transcribe_segments (s : ServiceState) (audio_path : String)
    (parent : String) (windows : List (Rat × Rat)) (origSrc : SourceFile)
    (origDecodeOk : Bool) (origLoad : LoadOutcome)
    (origInfer : Except String WhisperResult) (origElapsed : Rat)
    (loadAudioOk : Bool) (loads : Nat → LoadOutcome)
    (infers : Nat → Except String WhisperResult) (elapseds : Nat → Rat)
    (segSizes : Nat → Nat) : Except PyError TSValue :=
  match windows with
  | [] =>
      let r := transcribe_audio s origLoad origSrc audio_path origDecodeOk
        origInfer origElapsed
      match r.outcome with
      | .error e => .error e
      | .ok resp => .ok (.viaFile resp)
  | _ :: _ =>
      let body : Except PyError SegAggregate :=
        if loadAudioOk = false then
          .error (.other "Could not load audio file")
        else
          match ts_loop s parent 0 windows loads infers elapseds segSizes [] 0 with
          | .error e => .error e
          | .ok (entries, total, s2) =>
              let full_text := String.intercalate "\n\n" (entries.map SegEntry.text)
              match getattr_model_name s2 with
              | .error e => .error e
              | .ok mu =>
                  .ok { text := full_text, success := true, segments := entries,
                        total_processing_time_seconds := total, error := none,
                        model_used := some mu, device_used := some s2.device }
      match body with
      | .ok d => .ok (.agg d)
      | .error e =>
          .ok (.agg { text := "", success := false, segments := [],
                      total_processing_time_seconds := 0,
                      error := some (errMsg e), model_used := none,
                      device_used := none })

/-- The dict returned by `benchmark_performance`: the success report
(lines 447-454, omitting the gpu-stats blob the claims do not observe)
or one of the `{'error': ...}` dicts (lines 430 and 456). -/
inductive BenchValue where
  | report (test_duration_seconds : Nat) (processing_time_seconds : Int)
      (speed_multiplier : Rat) (device : String) (model : String)
  | failed (error : String)
deriving Repr, DecidableEq

/-- Embeds the reporting tail of `benchmark_performance`
(lines 446-456), taking the transcription result as input.  In the
success branch the dict literal evaluates `'speed_multiplier'` —
`test_duration_seconds / result['processing_time_seconds']`, which
raises `ZeroDivisionError` when the divisor is `0` — before the
`'model'` value `self.model_name`. -/
def benchmark_report (s : ServiceState) (test_duration_seconds : Nat)
    (r : TAResponse) : Except PyError BenchValue :=
  match r with
  | .success sr =>
      if sr.processing_time_seconds = 0 then
        .error .zeroDivisionError
      else
        match getattr_model_name s with
        | .error e => .error e
        | .ok m =>
            .ok (.report test_duration_seconds sr.processing_time_seconds
              ((test_duration_seconds : Rat) / (sr.processing_time_seconds : Rat))
              s.device m)
  | .failure fr => .ok (.failed fr.error)

/-- Embeds `benchmark_performance` (lines 427-456): load the model
(early `{'error': ...}` exit on failure), synthesize the test tone to
`benchmark_test.wav`, run `transcribe_audio` on it (whose exceptions
propagate — line 441 is not inside a `try`), and build the report. -/
def benchmark_performance (s : ServiceState) (load : LoadOutcome)
    (test_duration_seconds : Nat) (infer : Except String WhisperResult)
    (elapsed : Rat) (synthSize : Nat) : Except PyError BenchValue :=
  let L := _load_model s load
  if L.1 then
    let testSrc : SourceFile :=
      { fileExists := true, sizeBytes := synthSize, suffix := ".wav",
        stem := "benchmark_test", parent := "data/models" }
    let r := transcribe_audio L.2.1 load testSrc "data/models/benchmark_test.wav"
      true infer elapsed
    match r.outcome with
    | .error e => .error e
    | .ok resp => benchmark_report r.state test_duration_seconds resp
  else
    .ok (.failed "Model failed to load")

/-- Projection testing that a `transcribe_segments` outcome is the
failure aggregate of lines 399-405: success flag `False`, empty text,
no segment entries, zero total processing time, an error message. -/
def isEmptyFailureAgg : Except PyError TSValue → Bool
  | .ok (.agg d) =>
      !d.success && d.text == "" && d.segments.isEmpty &&
        d.total_processing_time_seconds == 0 && d.error.isSome
  | _ => false

/-- A service state with the `turbo` model loaded and active, as after
a first successful load on a CUDA device. -/
def sTurbo : ServiceState :=
  { model := some 1, current_model_name := some "turbo", device := "cuda",
    active_model := some "turbo", markerFile := some "turbo" }

/-- An existing 2048-byte `.wav` upload. -/
def wavFile : SourceFile :=
  { fileExists := true, sizeBytes := 2048, suffix := ".wav", stem := "audio",
    parent := "up" }

/-- An existing 2048-byte `.mp3` upload, which `_prepare_audio`
converts through a temporary file. -/
def mp3File : SourceFile :=
  { fileExists := true, sizeBytes := 2048, suffix := ".mp3", stem := "audio",
    parent := "up" }

/-- The state after `delete_model` removes the loaded `turbo` model's
cache file: the handle is cleared. -/
def sCleared : ServiceState :=
  { model := none, current_model_name := none, device := "cuda",
    active_model := some "turbo", markerFile := some "turbo" }

theorem getattr_model_name_eq (s : ServiceState) :
    getattr_model_name s = Except.error (PyError.attributeError "model_name") := rfl

theorem catchToFailure_eq (s : ServiceState) (msg : String) :
    catchToFailure s msg = Except.error (PyError.attributeError "model_name") := rfl

theorem buildSuccessResponse_isError (s : ServiceState) (r : WhisperResult)
    (elapsed sizeMB : Rat) :
    ∃ e, buildSuccessResponse s r elapsed sizeMB = Except.error e := by
  unfold buildSuccessResponse
  cases audio_duration_of r with
  | error e => exact ⟨e, rfl⟩
  | ok dur => exact ⟨PyError.attributeError "model_name", rfl⟩

/-- C6: `_prepare_audio` raises `FileNotFoundError` for every source
path that does not exist; for every existing source whose (lowercased)
extension is already `.wav` it returns the source path unchanged and
creates no temporary file; and the size in MB it reports always equals
the source file's size divided by 1024², computed before any
conversion. -/
theorem prepare_audio_spec (f : SourceFile) (audio_path : String) (decodeOk : Bool) :
    (f.fileExists = false →
      _prepare_audio f audio_path decodeOk
        = Except.error (PyError.fileNotFoundError audio_path)) ∧
    (f.fileExists = true → pyLower f.suffix = ".wav" →
      _prepare_audio f audio_path decodeOk
        = Except.ok { readyPath := audio_path,
                      sizeMB := (f.sizeBytes : Rat) / (1024 * 1024),
                      tempCreated := false }) ∧
    (∀ pr, _prepare_audio f audio_path decodeOk = Except.ok pr →
      pr.sizeMB = (f.sizeBytes : Rat) / (1024 * 1024)) := by
  refine ⟨fun h => by simp [_prepare_audio, h], fun h hs => by simp [_prepare_audio, h, hs],
    fun pr hpr => ?_⟩
  unfold _prepare_audio at hpr
  split at hpr
  · exact absurd hpr (by simp)
  · split at hpr
    · injection hpr with h
      rw [← h]
    · split at hpr
      · injection hpr with h
        rw [← h]
      · exact absurd hpr (by simp)

/-- Witness for `prepare_audio_spec` at a concrete existing `.wav`
file. -/
theorem prepare_audio_spec_witness :
    _prepare_audio wavFile "up/audio.wav" true
      = Except.ok { readyPath := "up/audio.wav",
                    sizeMB := (2048 : Rat) / (1024 * 1024),
                    tempCreated := false } :=
  (prepare_audio_spec wavFile "up/audio.wav" true).2.1 (by decide) (by decide)

/-- C7: when a model is loaded and its identifier equals the active
preference, `_load_model` returns `True` without touching the state or
calling the underlying loader; and starting from any state that needs a
load, a successful `_load_model` followed by a second `_load_model`
performs exactly one underlying `whisper.load_model` call in total. -/
theorem load_model_idempotent (s : ServiceState) (o o2 : LoadOutcome) :
    (s.model.isSome = true → s.current_model_name = s.active_model →
      _load_model s o = (true, s, 0)) ∧
    (∀ h, ¬(s.model.isSome = true ∧ s.current_model_name = s.active_model) →
      pyTruthyName s.active_model = true → o = LoadOutcome.success h →
      (_load_model s o).1 = true ∧
      (_load_model (_load_model s o).2.1 o2).1 = true ∧
      (_load_model s o).2.2 + (_load_model (_load_model s o).2.1 o2).2.2 = 1) := by
  constructor
  · intro hm hc
    simp [_load_model, hm, hc]
  · intro h hne htr ho
    subst ho
    have h1 : _load_model s (LoadOutcome.success h)
        = (true, { s with model := some h, current_model_name := s.active_model }, 1) := by
      unfold _load_model
      rw [if_neg hne, if_neg (by simp [htr])]
    have h2 : _load_model { s with model := some h, current_model_name := s.active_model } o2
        = (true, { s with model := some h, current_model_name := s.active_model }, 0) := by
      unfold _load_model
      rw [if_pos ⟨rfl, rfl⟩]
    simp [h1, h2]

/-- Witness for `load_model_idempotent`: with `turbo` both loaded and
active, `_load_model` is a no-op returning `True` even when the load
oracle would fail. -/
theorem load_model_idempotent_witness :
    _load_model sTurbo (LoadOutcome.failure "would not be called") = (true, sTurbo, 0) :=
  (load_model_idempotent sTurbo (LoadOutcome.failure "would not be called")
    (LoadOutcome.failure "would not be called")).1 (by decide) (by decide)

/-- C8: switching to the identifier that is already loaded leaves the
loaded-model handle (model object and loaded identifier) unchanged; and
whenever `switch_model` changes the model field at all it clears it to
`None` (never eagerly loads a new model), which happens only when a
different model was loaded. -/
theorem switch_model_already_loaded_noop (s : ServiceState) (writeOk : Bool) (x : String) :
    (x ∈ AVAILABLE_MODELS → s.current_model_name = some x →
      (switch_model s writeOk x).2.model = s.model ∧
      (switch_model s writeOk x).2.current_model_name = s.current_model_name) ∧
    (∀ y, (switch_model s writeOk y).2.model ≠ s.model →
      (switch_model s writeOk y).2.model = none ∧
      s.model.isSome = true ∧ s.current_model_name ≠ some y) := by
  constructor
  · intro hx hcur
    unfold switch_model _set_active_model
    rw [if_pos hx]
    cases writeOk with
    | false => simp
    | true => simp [hcur]
  · intro y hchanged
    unfold switch_model _set_active_model at hchanged ⊢
    by_cases hy : y ∈ AVAILABLE_MODELS
    · rw [if_pos hy] at hchanged ⊢
      cases writeOk with
      | false => simp at hchanged
      | true =>
          simp only [if_true] at hchanged ⊢
          split at hchanged
          · rename_i hcond
            rw [if_pos hcond]
            exact ⟨rfl, hcond.1, hcond.2⟩
          · simp at hchanged
    · rw [if_neg hy] at hchanged
      simp at hchanged

/-- Witness for `switch_model_already_loaded_noop`: switching to the
already-loaded `turbo` keeps the handle. -/
theorem switch_model_noop_witness :
    (switch_model sTurbo true "turbo").2.model = sTurbo.model ∧
    (switch_model sTurbo true "turbo").2.current_model_name = sTurbo.current_model_name :=
  (switch_model_already_loaded_noop sTurbo true "turbo").1 (by decide) (by decide)

/-- C9: when `delete_model` returns `True` (it removed at least one
cache file and every unlink succeeded) and the deleted identifier was
the currently loaded model, the loaded handle is cleared: both the
in-memory model object and the loaded identifier become `None`. -/
theorem delete_model_clears_loaded_handle (s : ServiceState) (cache : List String)
    (unlinkFails : String → Bool) (name : String) (ok : Bool) (s2 : ServiceState)
    (cache2 : List String)
    (hrun : delete_model s cache unlinkFails name = (ok, s2, cache2))
    (hok : ok = true) (hcur : s.current_model_name = some name) :
    s2.model = none ∧ s2.current_model_name = none := by
  subst hok
  simp only [delete_model, hcur, if_pos] at hrun
  split at hrun
  · split at hrun
    · split at hrun
      · injection hrun with h1 h2
        injection h2 with h2 h3
        rw [← h2]
        exact ⟨rfl, rfl⟩
      · simp at hrun
    · simp at hrun
  · simp at hrun

/-- Witness for `delete_model_clears_loaded_handle` on a concrete cache
holding a `turbo` file while `turbo` is loaded. -/
theorem delete_model_clears_witness :
    sCleared.model = none ∧ sCleared.current_model_name = none :=
  delete_model_clears_loaded_handle sTurbo ["turbo.pt", "medium.pt"] (fun _ => false)
    "turbo" true sCleared ["medium.pt"] (by decide) rfl (by decide)

/-- C10: whenever `switch_model` returns `False`, the whole service
state is unchanged — active preference, marker file, loaded model
object and loaded identifier all keep their prior values and no unload
happens — and a cataloged identifier can only fail this way because the
marker-file write raised. -/
theorem switch_model_failure_frame (s : ServiceState) (writeOk : Bool) (name : String)
    (ok : Bool) (s2 : ServiceState)
    (hrun : switch_model s writeOk name = (ok, s2)) (hok : ok = false) :
    s2 = s ∧ ¬(name ∈ AVAILABLE_MODELS ∧ writeOk = true) := by
  subst hok
  unfold switch_model _set_active_model at hrun
  by_cases hname : name ∈ AVAILABLE_MODELS
  · rw [if_pos hname] at hrun
    cases writeOk with
    | false =>
        simp only [if_false] at hrun
        injection hrun with h1 h2
        exact ⟨h2.symm, by simp⟩
    | true =>
        simp only [if_true] at hrun
        split at hrun
        · exact absurd (congrArg Prod.fst hrun) (by simp)
        · exact absurd (congrArg Prod.fst hrun) (by simp)
  · rw [if_neg hname] at hrun
    simp only [if_neg] at hrun
    injection hrun with h1 h2
    exact ⟨h2.symm, by simp [hname]⟩

/-- Witness for `switch_model_failure_frame`: switching to the
uncataloged identifier `base` fails and leaves the state untouched. -/
theorem switch_model_failure_witness :
    sTurbo = sTurbo ∧ ¬("base" ∈ AVAILABLE_MODELS ∧ true = true) :=
  switch_model_failure_frame sTurbo true "base" false sTurbo (by decide) rfl

/-- C1: when the inference call inside `transcribe_audio` raises, the
call does not return the failure-variant dict — building that dict
reads the never-assigned attribute `self.model_name`, so an
`AttributeError` propagates to the caller from the `except` handler. -/
theorem transcribe_audio_infer_exception_propagates (s : ServiceState)
    (load : LoadOutcome) (src : SourceFile) (audio_path : String) (decodeOk : Bool)
    (msg : String) (elapsed : Rat)
    (hload : (_load_model s load).1 = true)
    (hprep : ∃ pr, _prepare_audio src audio_path decodeOk = Except.ok pr) :
    (transcribe_audio s load src audio_path decodeOk (Except.error msg) elapsed).outcome
      = Except.error (PyError.attributeError "model_name") := by
  obtain ⟨pr, hpr⟩ := hprep
  simp [transcribe_audio, hload, hpr, catchToFailure_eq]

/-- Witness for `transcribe_audio_infer_exception_propagates`: a loaded
service, an existing `.wav` file and an inference that raises. -/
theorem transcribe_audio_exception_witness :
    (transcribe_audio sTurbo (LoadOutcome.success 2) wavFile "up/audio.wav" true
      (Except.error "CUDA error mid-run") 3).outcome
      = Except.error (PyError.attributeError "model_name") :=
  transcribe_audio_infer_exception_propagates sTurbo (LoadOutcome.success 2) wavFile
    "up/audio.wav" true "CUDA error mid-run" 3 (by decide)
    ⟨_, rfl⟩

/-- C2 counterexample: a concrete run in which `_prepare_audio` created
a normalized temporary file and the inference call raised; the
temporary file is still on disk when `transcribe_audio` ends, because
the unlink at lines 291-292 sits inside the `try` after the inference
call and there is no `finally`. -/
theorem transcribe_audio_temp_leak_cex :
    (transcribe_audio sTurbo (LoadOutcome.success 2) mp3File "up/audio.mp3" true
      (Except.error "inference failed") 3).tempRemains = true := by decide

/-- C2 (amended): the normalized temporary file is still on disk when
`transcribe_audio` ends exactly when the model was obtained, audio
preparation created a temporary file, and the inference call raised; in
particular it is deleted whenever inference returns, and leaks whenever
inference raises after a conversion. -/
theorem transcribe_audio_temp_cleanup_iff (s : ServiceState) (load : LoadOutcome)
    (src : SourceFile) (audio_path : String) (decodeOk : Bool)
    (infer : Except String WhisperResult) (elapsed : Rat) :
    (transcribe_audio s load src audio_path decodeOk infer elapsed).tempRemains = true ↔
      ((_load_model s load).1 = true ∧
        ∃ pr msg, _prepare_audio src audio_path decodeOk = Except.ok pr ∧
          pr.tempCreated = true ∧ infer = Except.error msg) := by
  cases hL : (_load_model s load).1 with
  | false => simp [transcribe_audio, hL]
  | true =>
      cases hp : _prepare_audio src audio_path decodeOk with
      | error e => simp [transcribe_audio, hL, hp]
      | ok pr =>
          cases infer with
          | error m => simp [transcribe_audio, hL, hp]
          | ok r =>
              obtain ⟨be, hbe⟩ :=
                buildSuccessResponse_isError (_load_model s load).2.1 r elapsed pr.sizeMB
              simp [transcribe_audio, hL, hp, hbe]

/-- C3 counterexample: in the reporting tail of
`benchmark_performance`, a successful transcription result with
`processing_time_seconds = 0` makes the `speed_multiplier` expression
raise `ZeroDivisionError` — there is no sentinel guard. -/
theorem benchmark_report_div_zero_cex :
    benchmark_report sTurbo 60
      (TAResponse.success
        { text := "tone", language := "pt", segments := [],
          processing_time_seconds := 0, audio_duration_seconds := 0,
          model_used := "turbo", device_used := "cuda", file_size_mb := 1,
          success := true })
      = Except.error PyError.zeroDivisionError := rfl

/-- C3 (amended): for a transcription result reporting success, the
benchmark report computes `test_duration / processing_time`; when the
processing time is `0` this raises `ZeroDivisionError`, and when it is
nonzero the report dict itself raises `AttributeError` at its `model`
entry (`self.model_name` is never assigned) — so the success report is
never returned. -/
theorem benchmark_report_success_characterization (s : ServiceState)
    (test_duration_seconds : Nat) (sr : SuccessResponse) :
    benchmark_report s test_duration_seconds (TAResponse.success sr)
      = (if sr.processing_time_seconds = 0 then
          Except.error PyError.zeroDivisionError
        else
          Except.error (PyError.attributeError "model_name")) := by
  unfold benchmark_report
  by_cases h : sr.processing_time_seconds = 0 <;> simp [h, getattr_model_name]

/-- Every `transcribe_audio` call that gets past `_load_model` raises:
whichever of the two result dicts it tries to build evaluates
`self.model_name`. -/
theorem transcribe_audio_never_returns (s : ServiceState) (load : LoadOutcome)
    (src : SourceFile) (audio_path : String) (decodeOk : Bool)
    (infer : Except String WhisperResult) (elapsed : Rat) :
    ∃ e, (transcribe_audio s load src audio_path decodeOk infer elapsed).outcome
      = Except.error e := by
  cases hL : (_load_model s load).1 with
  | false =>
      exact ⟨PyError.runtimeError "Failed to load Whisper model",
        by simp [transcribe_audio, hL]⟩
  | true =>
      cases hp : _prepare_audio src audio_path decodeOk with
      | error e =>
          exact ⟨PyError.attributeError "model_name",
            by simp [transcribe_audio, hL, hp, catchToFailure_eq]⟩
      | ok pr =>
          cases infer with
          | error m =>
              exact ⟨PyError.attributeError "model_name",
                by simp [transcribe_audio, hL, hp, catchToFailure_eq]⟩
          | ok r =>
              obtain ⟨be, hbe⟩ :=
                buildSuccessResponse_isError (_load_model s load).2.1 r elapsed pr.sizeMB
              exact ⟨PyError.attributeError "model_name",
                by simp [transcribe_audio, hL, hp, hbe, catchToFailure_eq]⟩

/-- C4: for every non-empty window list, `transcribe_segments` returns
the failure aggregate — success `False`, empty joined text, no per
window entries and zero total processing time — never the success
aggregate the claim describes, because the very first inner
`transcribe_audio` call raises (`self.model_name`), the exception is
caught at line 397, and the failure dict is returned. -/
theorem transcribe_segments_nonempty_always_failure (s : ServiceState)
    (audio_path parent : String) (windows : List (Rat × Rat)) (origSrc : SourceFile)
    (origDecodeOk : Bool) (origLoad : LoadOutcome)
    (origInfer : Except String WhisperResult) (origElapsed : Rat)
    (loadAudioOk : Bool) (loads : Nat → LoadOutcome)
    (infers : Nat → Except String WhisperResult) (elapseds : Nat → Rat)
    (segSizes : Nat → Nat) (hw : windows ≠ []) :
    isEmptyFailureAgg (transcribe_segments s audio_path parent windows origSrc
      origDecodeOk origLoad origInfer origElapsed loadAudioOk loads infers
      elapseds segSizes) = true := by
  obtain ⟨w, rest, rfl⟩ : ∃ a r, windows = a :: r := by
    cases windows with
    | nil => exact absurd rfl hw
    | cons a r => exact ⟨a, r, rfl⟩
  obtain ⟨wa, wb⟩ := w
  cases hla : loadAudioOk with
  | false => simp [transcribe_segments, hla, isEmptyFailureAgg]
  | true =>
      obtain ⟨e, he⟩ := transcribe_audio_never_returns s (loads 0)
        { fileExists := true, sizeBytes := segSizes 0, suffix := ".wav",
          stem := "temp_segment_" ++ toString 0, parent := parent }
        (parent ++ "/temp_segment_" ++ toString 0 ++ ".wav") true (infers 0) (elapseds 0)
      simp [transcribe_segments, hla, ts_loop, he, isEmptyFailureAgg]

/-- Witness for `transcribe_segments_nonempty_always_failure` on the
spec's test scenario windows `[(0,10),(10,20)]`. -/
theorem transcribe_segments_failure_witness :
    isEmptyFailureAgg (transcribe_segments sTurbo "up/a.wav" "up" [(0, 10), (10, 20)]
      wavFile true (LoadOutcome.success 2) (Except.error "unused") 1 true
      (fun _ => LoadOutcome.success 2) (fun _ => Except.error "window failed")
      (fun _ => 1) (fun _ => 100)) = true :=
  transcribe_segments_nonempty_always_failure sTurbo "up/a.wav" "up" [(0, 10), (10, 20)]
    wavFile true (LoadOutcome.success 2) (Except.error "unused") 1 true
    (fun _ => LoadOutcome.success 2) (fun _ => Except.error "window failed")
    (fun _ => 1) (fun _ => 100) (by decide)

/-- C5: even when the inference call returns a result, `transcribe_audio`
never returns the success variant: building the success dict evaluates
`self.model_name` (after the `audio_duration_seconds` expression, which
itself raises `IndexError` on an empty segment list), the exception is
caught, and the failure-dict construction re-raises `AttributeError`
to the caller. -/
theorem transcribe_audio_success_never_returned (s : ServiceState)
    (load : LoadOutcome) (src : SourceFile) (audio_path : String) (decodeOk : Bool)
    (r : WhisperResult) (elapsed : Rat)
    (hload : (_load_model s load).1 = true)
    (hprep : ∃ pr, _prepare_audio src audio_path decodeOk = Except.ok pr) :
    (transcribe_audio s load src audio_path decodeOk (Except.ok r) elapsed).outcome
      = Except.error (PyError.attributeError "model_name") := by
  obtain ⟨pr, hpr⟩ := hprep
  obtain ⟨be, hbe⟩ :=
    buildSuccessResponse_isError (_load_model s load).2.1 r elapsed pr.sizeMB
  simp [transcribe_audio, hload, hpr, hbe, catchToFailure_eq]

/-- Witness for `transcribe_audio_success_never_returned`: inference
succeeds with one recognized segment, yet the caller sees
`AttributeError`. -/
theorem transcribe_audio_success_lost_witness :
    (transcribe_audio sTurbo (LoadOutcome.success 2) wavFile "up/audio.wav" true
      (Except.ok { text := " ola mundo ", language := "pt",
                   segments := some [{ start := 0, endTime := 7, text := " ola ",
                                       no_speech_prob := some (1/10) }] }) 3).outcome
      = Except.error (PyError.attributeError "model_name") :=
  transcribe_audio_success_never_returned sTurbo (LoadOutcome.success 2) wavFile
    "up/audio.wav" true
    { text := " ola mundo ", language := "pt",
      segments := some [{ start := 0, endTime := 7, text := " ola ",
                          no_speech_prob := some (1/10) }] } 3 (by decide)
    ⟨_, rfl⟩

end CloudTranscript
